import Mathlib

/-!
Verification of `src/saltext/sap/_modules/sap.py` (`get_system_data`) against
its specification.  The Python function is shallowly embedded: the collaborator
calls (`sap_hostctrl.list_instances`, `sap_control.*`, `file.grep`,
`requests.get`, grains) become oracle fields of a `Config` record, Python
dictionaries become association lists or structures with `Option` fields
(`none` models an absent key), Python exceptions become `Except PyErr`, and the
log calls that the spec talks about (warning / error level) are accumulated in
a `Log` list.  Python string operations (`split`, `strip`, `upper`, `int`,
`startswith`) are re-implemented over `List Char` with Python semantics so that
everything reduces in the kernel.
-/

namespace SapModule

/-- Log levels of the `logging` calls that matter to the specification. -/
inductive LogLevel where
  | debug
  | warning
  | error
deriving DecidableEq, Repr

abbrev Log := List (LogLevel × String)

/-- Python exceptions that the embedded code can raise. -/
inductive PyErr where
  /-- `KeyError` on a dictionary access, carrying the missing key. -/
  | keyError : String → PyErr
  /-- `TypeError`, e.g. `int(None)`. -/
  | typeError : PyErr
  /-- `ValueError`, e.g. `int("abc")`. -/
  | valueError : PyErr
  /-- `IndexError` on a list subscript. -/
  | indexError : PyErr
  /-- `UnboundLocalError` on reading a never-assigned local variable. -/
  | unboundLocal : String → PyErr
  /-- A bare `raise Exception(msg)`. -/
  | exception : String → PyErr
deriving DecidableEq, Repr

/-- A single-quote character, used inside reproduced log messages. -/
def sq : String := ⟨[Char.ofNat 39]⟩

/-- Split a character list at every occurrence of `sep`
(Python `str.split(sep)` for a one-character separator). -/
def splitChar (sep : Char) : List Char → List (List Char)
  | [] => [[]]
  | c :: rest =>
    let r := splitChar sep rest
    if c = sep then [] :: r
    else
      match r with
      | [] => [[c]]
      | h :: t => (c :: h) :: t

/-- Python `s.split(sep)` for a one-character separator. -/
def pySplit (s : String) (sep : Char) : List String :=
  (splitChar sep s.data).map (fun l => ⟨l⟩)

/-- Characters removed by Python `str.strip()` (ASCII whitespace). -/
def isPySpace (c : Char) : Bool :=
  c = ' ' ∨ c = '\t' ∨ c = '\n' ∨ c = '\r' ∨ c.toNat = 11 ∨ c.toNat = 12

/-- Python `str.strip()`. -/
def pyStrip (s : String) : String :=
  ⟨((s.data.dropWhile isPySpace).reverse.dropWhile isPySpace).reverse⟩

/-- Prefix test on character lists. -/
def isPfx : List Char → List Char → Bool
  | [], _ => true
  | _ :: _, [] => false
  | a :: as, b :: bs => a = b ∧ isPfx as bs

/-- Python `s.startswith(p)`. -/
def pyStartsWith (s p : String) : Bool := isPfx p.data s.data

/-- ASCII upper-casing of one character. -/
def upChar (c : Char) : Char :=
  if 'a' ≤ c ∧ c ≤ 'z' then Char.ofNat (c.toNat - 32) else c

/-- Python `s.upper()` (the strings involved are ASCII). -/
def pyUpper (s : String) : String := ⟨s.data.map upChar⟩

/-- Join character lists with a one-character separator
(inverse of `splitChar`, used for `split(sep, 1)`). -/
def joinSep (sep : Char) : List (List Char) → List Char
  | [] => []
  | [x] => x
  | x :: y :: t => x ++ sep :: joinSep sep (y :: t)

/-- Numeric value of a digit list. -/
def digitsVal (l : List Char) : Nat :=
  l.foldl (fun n c => n * 10 + (c.toNat - 48)) 0

/-- Python `int(s)` on a string: optional surrounding whitespace, optional
sign, at least one decimal digit; otherwise `ValueError`. -/
def pyIntStr (s : String) : Except PyErr Int :=
  let t := (pyStrip s).data
  let sgnDigits : Int × List Char :=
    match t with
    | '-' :: rest => (-1, rest)
    | '+' :: rest => (1, rest)
    | l => (1, l)
  if sgnDigits.2 ≠ [] ∧ sgnDigits.2.all (fun c => c.isDigit) then
    Except.ok (sgnDigits.1 * (digitsVal sgnDigits.2 : Int))
  else
    Except.error PyErr.valueError

/-- Python `int(x)` where `x : Option String` may be `None`. -/
def pyInt : Option String → Except PyErr Int
  | none => Except.error PyErr.typeError
  | some s => pyIntStr s

/-- Python `f"{n:02d}"` for a natural number. -/
def pad2 (n : Nat) : String :=
  if n < 10 then "0" ++ Nat.repr n else Nat.repr n

/-- Association list modelling a Python `dict` with string keys:
insertion order preserved, assignment to an existing key replaces in place. -/
abbrev ParamMap := List (String × String)

/-- Python `d[k] = v` on a string-keyed dict. -/
def pmInsert (m : ParamMap) (k v : String) : ParamMap :=
  if m.any (fun p => p.1 = k) then
    m.map (fun p => if p.1 = k then (k, v) else p)
  else
    m ++ [(k, v)]

/-- Python `d.get(k)` on a string-keyed dict. -/
def pmFind (m : ParamMap) (k : String) : Option String :=
  (m.find? (fun p => p.1 = k)).map (fun p => p.2)

/-- Result of `file.grep`. -/
structure GrepResult where
  retcode : Int
  stdout : String
deriving DecidableEq, Repr

/-- Response of `requests.get`; the oracle returns `none` for a
`RequestException` (connection-level failure). -/
structure HttpResponse where
  ok : Bool
  text : String
deriving DecidableEq, Repr

/-- One element of the `sap_control.get_system_instance_list` result:
a dict with at least `hostname`, `instance` and `features`. -/
structure RawInstance where
  hostname : String
  instanceNo : Nat
  features : List String
deriving DecidableEq, Repr

/-- The per-instance dict as mutated by the loop body.  `instanceField`
models the raw `"instance"` key (`none` once `del instance["instance"]`
has run); the other optional fields model keys that may be absent. -/
structure InstanceRec where
  hostname : String
  instanceField : Option Nat
  features : List String
  fqdn : Option String := none
  itype : Option String := none
  httpport : Option Int := none
  httpsport : Option Int := none
  name : Option String := none
deriving DecidableEq, Repr

/-- A message-server record (`message_server` dict).  In the source only
`host`, `msport` and (by the default fallback) `httpport` are ever
assigned on this dict; `httpsport` stays absent. -/
structure MSRecord where
  host : String
  msport : Option String := none
  httpport : Option String := none
  httpsport : Option String := none
deriving DecidableEq, Repr

/-- The `system_data` accumulator.  `hasInstances` distinguishes the bare
`{}` returned on empty discovery from `{"instances": {}}`. -/
structure SystemData where
  hasInstances : Bool := false
  instances : List (Nat × InstanceRec) := []
  db_host : Option String := none
  db_instance : Option String := none
  software_components : Option (List String) := none
  message_servers : Option (List MSRecord) := none
  logon_groups : Option (List String) := none
deriving DecidableEq, Repr

/-- State carried through the instance loop: the accumulator, the Python
local `parameters` (`none` = never assigned), and the log. -/
structure LoopState where
  sd : SystemData
  parameters : Option ParamMap
  log : Log

/-- The inputs of one `get_system_data` call: arguments, grains, and the
collaborator calls as deterministic oracles.  `username`/`password` are
threaded opaquely through every collaborator and are therefore not
repeated in the oracle argument lists. -/
structure Config where
  sid : String
  username : String
  password : String
  verify : Bool := true
  domain : String
  grainsFqdn : String
  /-- `sap_hostctrl.list_instances`: each element models a one-entry
  `{hostname: instance_number}` dict. -/
  hostctrlInstances : List (String × Nat)
  /-- `sap_control.get_system_instance_list (instance_number, fqdn)`. -/
  systemInstanceList : Nat → String → List RawInstance
  /-- `sap_control.parameter_value (instance_number, fqdn)` with empty
  parameter filter: `(success, raw-dump)`. -/
  parameterValue : Nat → String → Bool × String
  /-- `sap_control.get_abap_component_list (instance_number, fqdn)`. -/
  abapComponentList : Nat → String → Bool × List String
  /-- `file.grep (path, pattern)`. -/
  fileGrep : String → String → GrepResult
  /-- `requests.get url` (`none` = `RequestException`). -/
  httpGet : String → Option HttpResponse
  /-- `sap_control.get_instance_properties (instance_number, fqdn)`. -/
  instanceProperties : Nat → String → List (String × String)

/-! ## The embedded program -/

/-- One line of the parameter dump: Python `line.split("=", 1)` when the
line contains `=`, i.e. key before the first `=`, value after it, both
stripped (sap.py lines 133-135). -/
def parseParamLine (line : String) : Option (String × String) :=
  match pySplit line '=' with
  | k :: v :: rest =>
    some (pyStrip k, pyStrip ⟨joinSep '=' ((v :: rest).map String.data)⟩)
  | _ => none

/-- sap.py lines 131-137: parse the newline-delimited `key=value` dump into
a dict, warning on every non-empty line without `=`. -/
def parseParameters (s : String) : ParamMap × Log :=
  (pySplit s '\n').foldl
    (fun (acc : ParamMap × Log) line =>
      match parseParamLine line with
      | some kv => (pmInsert acc.1 kv.1 kv.2, acc.2)
      | none =>
        if line ≠ "" then
          (acc.1,
           acc.2 ++ [(LogLevel.warning,
             "Cannot determine key/value of parameter " ++ sq ++ line ++ sq)])
        else acc)
    ([], [])

/-- Accumulator of the inner `for param in params` loop of the port parsing
(sap.py lines 179-191 and 245-257). -/
structure PortScan where
  protocol : Option String := none
  port : Option String := none
  warnings : Log := []

/-- sap.py lines 178-191 / 244-257: split the parameter value on `,`, split
each piece on `=` (a piece without `=` raises `IndexError` via `k_v[1]`),
and collect `PROT` / `PORT`, warning on unknown sub-keys. -/
def scanPortParams (icmK icmV : String) : Except PyErr PortScan :=
  (pySplit icmV ',').foldlM
    (fun (acc : PortScan) param =>
      match pySplit param '=' with
      | k :: v :: _ =>
        let key := pyStrip k
        let value := pyStrip v
        if key = "PROT" then pure {acc with protocol := some value}
        else if key = "PORT" then pure {acc with port := some value}
        else
          pure {acc with warnings := acc.warnings ++
            [(LogLevel.warning,
              "Unknown parameter " ++ key ++ "=" ++ value ++ " for " ++ icmK)]}
      | _ => Except.error PyErr.indexError)
    {}

/-- Python truthiness of `protocol` (`None` or `""` are falsy). -/
def pyTruthyOptStr : Option String → Bool
  | none => false
  | some s => s ≠ ""

/-- sap.py lines 177-204 / 243-270, one `icm/ms server_port_*` entry:
`port = int(port)` (raising on `None` or a non-numeric string), then the
`not protocol or not port` guard, then the case-insensitive protocol
dispatch writing `httpsport`/`httpport` onto the instance dict. -/
def applyPortEntry (icmK icmV : String) (inst : InstanceRec) :
    Except PyErr (InstanceRec × Log) := do
  let scan ← scanPortParams icmK icmV
  let port ← pyInt scan.port
  if ¬ pyTruthyOptStr scan.protocol ∨ port = 0 then
    pure (inst, scan.warnings ++
      [(LogLevel.warning, "Protocol or port not defined for " ++ icmK)])
  else
    let protU := pyUpper (scan.protocol.getD "")
    if protU = "HTTPS" then
      pure ({inst with httpsport := some port}, scan.warnings)
    else if protU = "HTTP" then
      pure ({inst with httpport := some port}, scan.warnings)
    else
      pure (inst, scan.warnings ++
        [(LogLevel.error,
          "Unknown protocol " ++ sq ++ protU ++ sq ++ ", skipping")])

/-- The `for icm_k, icm_v in parameters.items()` loops (sap.py lines 175
and 241): apply `applyPortEntry` to every parameter whose key starts with
the given text. -/
def foldPortParams (pfxText : String) (params : ParamMap)
    (inst : InstanceRec) : Except PyErr (InstanceRec × Log) :=
  params.foldlM
    (fun (acc : InstanceRec × Log) kv =>
      if pyStartsWith kv.1 pfxText then do
        let r ← applyPortEntry kv.1 kv.2 acc.1
        pure (r.1, acc.2 ++ r.2)
      else pure acc)
    (inst, [])

/-- sap.py lines 140-317: the feature-membership `if`/`elif` chain that
classifies the instance (first match wins). -/
def classify (features : List String) : String :=
  if "ABAP" ∈ features then "ABAP"
  else if "WEBDISP" ∈ features then "WEBDISP"
  else if "J2EE" ∈ features then "JAVA"
  else if "TREX" ∈ features then "TREX"
  else if "HDB" ∈ features then "HDB"
  else if "MESSAGESERVER" ∈ features then "ASCS"
  else "UNKNOWN"

/-- Reading the Python local `parameters`: `UnboundLocalError` when the
variable was never assigned (parameter fetch failed on every iteration
so far). -/
def getParams : Option ParamMap → Except PyErr ParamMap
  | none => Except.error (PyErr.unboundLocal "parameters")
  | some p => pure p

/-- sap.py lines 140-204, the ABAP branch: `SAPDBHOST` → `db_host`,
`rsdb/dbid` → `db_instance`, component list → `software_components`
(each warn-and-skip when absent/failed), then the ICM port loop. -/
def abapBranch (cfg : Config) (params? : Option ParamMap) (sd : SystemData)
    (inst : InstanceRec) (instNo : Nat) (instFqdn : String) :
    Except PyErr (SystemData × InstanceRec × Log) := do
  let inst := {inst with itype := some "ABAP"}
  let parameters ← getParams params?
  let r1 : SystemData × Log :=
    match pmFind parameters "SAPDBHOST" with
    | none => (sd, [(LogLevel.warning, "Parameter SAPDBHOST does not exist")])
    | some v => ({sd with db_host := some v}, [])
  let r2 : SystemData × Log :=
    match pmFind parameters "rsdb/dbid" with
    | none => (r1.1, [(LogLevel.warning, "Parameter rsdb/dbid does not exist")])
    | some v => ({r1.1 with db_instance := some v}, [])
  let comps := cfg.abapComponentList instNo instFqdn
  let r3 : SystemData × Log :=
    if ¬ comps.1 then
      (r2.1, [(LogLevel.warning, "Could not retrieve ABAP component list")])
    else if comps.2 = [] then
      (r2.1, [(LogLevel.warning, "ABAP components does not exist")])
    else
      ({r2.1 with software_components := some comps.2}, [])
  let r4 ← foldPortParams "icm/server_port_" parameters inst
  pure (r3.1, r4.1, r1.2 ++ r2.2 ++ r3.2 ++ r4.2)

/-- sap.py line 233: `etc_services["stdout"].split("\t")[1].split("/")[0]`
(`IndexError` when the grep output has no tab). -/
def msportFromGrep (stdout : String) : Except PyErr String :=
  match pySplit stdout '\t' with
  | _ :: second :: _ =>
    match pySplit second '/' with
    | f :: _ => pure f
    | [] => pure second
  | _ => Except.error PyErr.indexError

/-- sap.py lines 224-277: build the `message_server` dict — `host`, the
`msport` from `/etc/services` (default `"36" + NN`), the `ms/server_port_*`
loop (which writes onto the *instance* dict), and the `httpport`
default `"81" + NN` with its warning when the dict has no `httpport` key. -/
def buildMessageServerRecord (cfg : Config) (params? : Option ParamMap)
    (inst : InstanceRec) (instNo : Nat) (instFqdn : String) :
    Except PyErr (MSRecord × InstanceRec × Log) := do
  let ms : MSRecord := {host := instFqdn}
  let msStep : Except PyErr (MSRecord × Log) :=
    if (cfg.fileGrep "/etc/services" ("sapms" ++ cfg.sid)).retcode = 0 then do
      let p ← msportFromGrep (cfg.fileGrep "/etc/services" ("sapms" ++ cfg.sid)).stdout
      pure ({ms with msport := some p}, [])
    else
      pure ({ms with msport := some ("36" ++ pad2 instNo)}, [])
  let msr ← msStep
  let parameters ← getParams params?
  let r2 ← foldPortParams "ms/server_port_" parameters inst
  let r3 : MSRecord × Log :=
    if msr.1.httpport = none then
      ({msr.1 with httpport := some ("81" ++ pad2 instNo)},
       [(LogLevel.warning,
         "Could not determine HTTP / HTTPS port of message server, setting to default 81"
           ++ pad2 instNo)])
    else (msr.1, [])
  pure (r3.1, r2.1, msr.2 ++ r2.2 ++ r3.2)

/-- sap.py lines 310-313: parse the logon-group listing — drop the header
line, skip empty lines, take the first tab-delimited field. -/
def parseLogonGroups (body : String) : List String :=
  ((pySplit body '\n').drop 1).foldl
    (fun acc lg =>
      if lg ≠ "" then
        acc ++ [match pySplit lg '\t' with | f :: _ => f | [] => lg]
      else acc)
    []

/-- sap.py lines 285-290: build the probe URL for one message-server
record.  Both branches read `message_server["httpsport"]`, a key that is
never assigned on this dict, so the access raises `KeyError` whenever it
is reached with the key absent. -/
def msUrl (verify : Bool) (ms : MSRecord) : Except PyErr String :=
  if verify ∧ ms.httpsport.isSome then
    match ms.httpsport with
    | some p =>
      pure ("https://" ++ ms.host ++ ":" ++ p ++ "/msgserver/text/lglist")
    | none => Except.error (PyErr.keyError "httpsport")
  else
    match ms.httpsport with
    | some p =>
      pure ("http://" ++ ms.host ++ ":" ++ p ++ "/msgserver/text/lglist")
    | none => Except.error (PyErr.keyError "httpsport")

/-- sap.py lines 282-302: try each message server in order; a
`RequestException` (`none` from the oracle) or a non-`ok` status means
"continue"; the first `ok` response wins. -/
def probeLoop (verify : Bool) (httpGet : String → Option HttpResponse) :
    List MSRecord → Except PyErr (Option String)
  | [] => pure none
  | ms :: rest => do
    let url ← msUrl verify ms
    match httpGet url with
    | none => probeLoop verify httpGet rest
    | some res =>
      if res.ok then pure (some res.text)
      else probeLoop verify httpGet rest

/-- sap.py lines 217-315, the MESSAGESERVER branch: type `ASCS`, build and
append the message-server record, probe all message servers for the
logon-group listing, and fall back to `["SPACE"]` with a warning when no
probe succeeded. -/
def msBranch (cfg : Config) (params? : Option ParamMap) (sd : SystemData)
    (inst : InstanceRec) (instNo : Nat) (instFqdn : String) :
    Except PyErr (SystemData × InstanceRec × Log) := do
  let inst := {inst with itype := some "ASCS"}
  let msList0 := sd.message_servers.getD []
  let b ← buildMessageServerRecord cfg params? inst instNo instFqdn
  let msList := msList0 ++ [b.1]
  let sd := {sd with message_servers := some msList}
  let response ← probeLoop cfg.verify cfg.httpGet msList
  let r : List String × Log :=
    match response with
    | none =>
      (["SPACE"],
       [(LogLevel.warning,
         "Could not reach any message server to retrieve logon groups, adding default logon group SPACE")])
    | some body => (parseLogonGroups body, [])
  pure ({sd with logon_groups := some r.1}, b.2.1, b.2.2 ++ r.2)

/-- sap.py lines 140-317: dispatch on the first matching feature.
`classify` computes exactly the source's `if`/`elif` chain, so matching on
its result selects the same branch as the chain. -/
def typeSpecific (cfg : Config) (params? : Option ParamMap) (sd : SystemData)
    (inst : InstanceRec) (instNo : Nat) (instFqdn : String) :
    Except PyErr (SystemData × InstanceRec × Log) :=
  match classify inst.features with
  | "ABAP" => abapBranch cfg params? sd inst instNo instFqdn
  | "WEBDISP" => pure (sd, {inst with itype := some "WEBDISP"}, [])
  | "JAVA" => pure (sd, {inst with itype := some "JAVA"}, [])
  | "TREX" => pure (sd, {inst with itype := some "TREX"}, [])
  | "HDB" => pure (sd, {inst with itype := some "HDB"}, [])
  | "ASCS" => msBranch cfg params? sd inst instNo instFqdn
  | _ => pure (sd, {inst with itype := some "UNKNOWN"}, [])

/-- Python `d[k] = v` on the `Nat`-keyed `instances` dict. -/
def dictInsert (m : List (Nat × InstanceRec)) (k : Nat) (v : InstanceRec) :
    List (Nat × InstanceRec) :=
  if m.any (fun p => p.1 = k) then
    m.map (fun p => if p.1 = k then (k, v) else p)
  else
    m ++ [(k, v)]

/-- sap.py lines 114-333, one iteration of `for instance in instances`:
set `fqdn`, fetch and (on success) parse the parameters, run the
type-specific branch, fetch the instance properties **with the
management FQDN** (`fqdn=fqdn`, line 322), set `name`, delete the raw
`instance` key and insert the record under the instance number. -/
def processInstance (cfg : Config) (fqdnMgmt : String) (st : LoopState)
    (raw : RawInstance) : Except PyErr LoopState := do
  let instFqdn := raw.hostname ++ "." ++ cfg.domain
  let inst : InstanceRec :=
    { hostname := raw.hostname, instanceField := some raw.instanceNo,
      features := raw.features, fqdn := some instFqdn }
  let fetched := cfg.parameterValue raw.instanceNo instFqdn
  let pstep : Option ParamMap × Log :=
    if fetched.1 then
      let parsed := parseParameters fetched.2
      (some parsed.1, parsed.2)
    else
      (st.parameters, [(LogLevel.warning, "Could not retrieve parameters")])
  let t ← typeSpecific cfg pstep.1 st.sd inst raw.instanceNo instFqdn
  let props := cfg.instanceProperties raw.instanceNo fqdnMgmt
  let nm := (pmFind props "INSTANCE_NAME").getD "UNKOWN_INSTANCE_NAME"
  let instFinal := {t.2.1 with name := some nm, instanceField := none}
  pure
    { sd := {t.1 with instances := dictInsert t.1.instances raw.instanceNo instFinal},
      parameters := pstep.1,
      log := st.log ++ pstep.2 ++ t.2.2 }

/-- sap.py lines 47-336, `get_system_data`: empty discovery → warn and
return `{}`; otherwise derive the management FQDN from the first
discovered hostname, fetch the detail list (empty → `raise Exception`),
and fold the per-instance processing over it. -/
def get_system_data (cfg : Config) : Except PyErr (SystemData × Log) :=
  match cfg.hostctrlInstances with
  | [] =>
    pure ({},
      [(LogLevel.warning,
        "No instances found for " ++ cfg.sid ++ " on " ++ cfg.grainsFqdn)])
  | (hostname, n0) :: _ =>
    match cfg.systemInstanceList n0 (hostname ++ "." ++ cfg.domain) with
    | [] =>
      Except.error (PyErr.exception
        ("No instances found for " ++ cfg.sid ++ " on "
          ++ (hostname ++ "." ++ cfg.domain)))
    | d :: ds =>
      ((d :: ds).foldlM (processInstance cfg (hostname ++ "." ++ cfg.domain))
          {sd := {hasInstances := true}, parameters := none, log := []}).map
        (fun st => (st.sd, st.log))

/-! ## Concrete scenarios (collaborator responses) -/

/-- A base configuration used by the concrete scenarios. -/
def baseCfg : Config :=
  { sid := "T01", username := "sapadm", password := "pw", verify := true,
    domain := "example.com", grainsFqdn := "mgmt.example.com",
    hostctrlInstances := [("host0", 0)],
    systemInstanceList := fun _ _ => [],
    parameterValue := fun _ _ => (true, ""),
    abapComponentList := fun _ _ => (true, []),
    fileGrep := fun _ _ => ⟨1, ""⟩,
    httpGet := fun _ => none,
    instanceProperties := fun _ _ => [] }

/-- Discovery returns no instances at all. -/
def cfgNoInstances : Config := {baseCfg with hostctrlInstances := []}

/-- Discovery succeeds but the detail fetch returns an empty list. -/
def cfgDetailEmpty : Config := baseCfg

/-- One MESSAGESERVER instance, parameter fetch succeeds with an empty
dump, the `/etc/services` grep fails, every HTTP probe would fail. -/
def cfgMsgServer : Config :=
  {baseCfg with
    systemInstanceList := fun _ _ => [⟨"ascs", 1, ["MESSAGESERVER"]⟩]}

/-- One ABAP instance whose only parameter is an ICM port entry with the
`PORT` sub-field missing. -/
def cfgPortMissing : Config :=
  {baseCfg with
    systemInstanceList := fun _ _ => [⟨"app", 0, ["ABAP"]⟩],
    parameterValue := fun _ _ => (true, "icm/server_port_0=PROT=HTTP")}

/-- One ABAP instance whose parameter fetch reports failure. -/
def cfgFetchFail : Config :=
  {baseCfg with
    systemInstanceList := fun _ _ => [⟨"app", 0, ["ABAP"]⟩],
    parameterValue := fun _ _ => (false, "")}

/-- One WEBDISP instance; the whole collection run succeeds.  The
property oracle answers differently on the management FQDN
(`host0.example.com`) and on the instance FQDN (`wd.example.com`). -/
def cfgWebdisp : Config :=
  {baseCfg with
    systemInstanceList := fun _ _ => [⟨"wd", 2, ["WEBDISP"]⟩],
    instanceProperties := fun _ f =>
      if f = "host0.example.com" then [("INSTANCE_NAME", "W02")]
      else [("INSTANCE_NAME", "WRONG")]}

/-- The instance record produced by the `cfgWebdisp` run. -/
def webdispRec : InstanceRec :=
  { hostname := "wd", instanceField := none, features := ["WEBDISP"],
    fqdn := some "wd.example.com", itype := some "WEBDISP",
    name := some "W02" }

/-- The system data produced by the `cfgWebdisp` run. -/
def webdispSD : SystemData :=
  { hasInstances := true, instances := [(2, webdispRec)] }

/-- A MESSAGESERVER instance record as it looks when the message-server
branch starts (used to instantiate Claim C8). -/
def msInst : InstanceRec :=
  { hostname := "ascs", instanceField := some 1,
    features := ["MESSAGESERVER"], fqdn := some "ascs.example.com" }

/-! ## Helper lemmas -/

theorem exceptBind_ok_iff {α β : Type} {x : Except PyErr α}
    {f : α → Except PyErr β} {b : β} :
    x >>= f = Except.ok b ↔ ∃ a, x = Except.ok a ∧ f a = Except.ok b := by
  cases x with
  | error e => simp [Bind.bind, Except.bind]
  | ok a => simp [Bind.bind, Except.bind]

theorem exceptMap_ok_iff {α β : Type} {x : Except PyErr α} {f : α → β} {b : β} :
    Except.map f x = Except.ok b ↔ ∃ a, x = Except.ok a ∧ f a = b := by
  cases x with
  | error e => simp [Except.map]
  | ok a => simp [Except.map]

theorem foldlM_ok_inv {σ α : Type} (f : σ → α → Except PyErr σ) (P : σ → Prop)
    (hstep : ∀ s a s2, f s a = Except.ok s2 → P s → P s2) :
    ∀ (l : List α) (s0 s1 : σ),
      List.foldlM f s0 l = Except.ok s1 → P s0 → P s1 := by
  intro l
  induction l with
  | nil =>
    intro s0 s1 h hp
    simp only [List.foldlM_nil] at h
    cases h
    exact hp
  | cons a t ih =>
    intro s0 s1 h hp
    rw [List.foldlM_cons, exceptBind_ok_iff] at h
    obtain ⟨s2, h2, h3⟩ := h
    exact ih s2 s1 h3 (hstep s0 a s2 h2 hp)

theorem exceptPure_ok_iff {α : Type} {a b : α} :
    (pure a : Except PyErr α) = Except.ok b ↔ a = b := by
  change Except.ok a = Except.ok b ↔ a = b
  constructor
  · intro h; injection h
  · intro h; rw [h]

theorem foldPortParams_no_match (pfxText : String) :
    ∀ (params : ParamMap) (inst : InstanceRec),
      (∀ kv ∈ params, pyStartsWith kv.1 pfxText = false) →
      foldPortParams pfxText params inst = Except.ok (inst, []) := by
  intro params
  induction params with
  | nil => intro inst _h; rfl
  | cons kv t ih =>
    intro inst h
    have hkv := h kv (List.mem_cons_self kv t)
    unfold foldPortParams at ih ⊢
    rw [List.foldlM_cons]
    simp only [hkv, Bool.false_eq_true, if_false, pure_bind]
    exact ih inst (fun q hq => h q (List.mem_cons_of_mem kv hq))

theorem dictInsert_mem {m : List (Nat × InstanceRec)} {k : Nat}
    {v : InstanceRec} {p : Nat × InstanceRec} (hp : p ∈ dictInsert m k v) :
    p ∈ m ∨ p = (k, v) := by
  unfold dictInsert at hp
  split at hp
  · obtain ⟨q, hq, hqe⟩ := List.mem_map.mp hp
    by_cases h : q.1 = k
    · right; rw [if_pos h] at hqe; exact hqe.symm
    · left; rw [if_neg h] at hqe; exact hqe ▸ hq
  · rcases List.mem_append.mp hp with h | h
    · left; exact h
    · right; simpa using h

theorem dictInsert_keys_nodup {m : List (Nat × InstanceRec)} {k : Nat}
    {v : InstanceRec} (h : (m.map Prod.fst).Nodup) :
    ((dictInsert m k v).map Prod.fst).Nodup := by
  unfold dictInsert
  split
  · have heq : (m.map (fun p => if p.1 = k then (k, v) else p)).map Prod.fst
        = m.map Prod.fst := by
      rw [List.map_map]
      apply List.map_congr_left
      intro p _hp
      by_cases hq : p.1 = k
      · simp [hq]
      · simp [hq]
    rw [heq]; exact h
  · rename_i hnone
    rw [List.map_append]
    rw [List.nodup_append]
    refine ⟨h, List.nodup_singleton k, ?_⟩
    intro x hx hx1
    simp only [List.map_cons, List.map_nil, List.mem_singleton] at hx1
    subst hx1
    obtain ⟨q, hq, hqk⟩ := List.mem_map.mp hx
    exact hnone (List.any_eq_true.mpr ⟨q, hq, decide_eq_true hqk⟩)

theorem webdisp_run_ok : get_system_data cfgWebdisp = Except.ok (webdispSD, []) := rfl

/-! ## Claims -/

/-- Claim C1: the spec says that during logon-group retrieval for a
MESSAGESERVER instance the collector probes each message server, handles
connection failures and bad statuses by moving on, falls back to
`["SPACE"]`, and never raises.  In the code both URL branches read
`message_server["httpsport"]`, a key that is never assigned on the
message-server record (the port loop writes to the *instance* record), so
the very first probe raises `KeyError` — here evaluated on a concrete run
with one MESSAGESERVER instance. -/
theorem claim_C1_logon_group_probe_raises_keyerror :
    get_system_data cfgMsgServer = Except.error (PyErr.keyError "httpsport") := rfl

/-- Claim C2: the spec says a port entry with `PROT` or `PORT` missing is
skipped with a warning and never causes an exception.  In the code
`port = int(port)` runs *before* the missing-field check, so an
`icm/server_port_0` value of `"PROT=HTTP"` (no `PORT`) raises `TypeError`
from `int(None)` — evaluated on a concrete ABAP run. -/
theorem claim_C2_port_entry_missing_port_raises :
    get_system_data cfgPortMissing = Except.error PyErr.typeError := rfl

/-- Claim C3: the spec says that when the parameter fetch fails the
collector proceeds with an empty parameter map.  In the code the
`parameters` local is only assigned in the success branch, so on a
first-instance failure the ABAP branch reads an unbound local and raises
`UnboundLocalError` (and on later instances it would silently reuse the
previous instance's map) — evaluated on a concrete ABAP run. -/
theorem claim_C3_parameter_fetch_failure_raises_unbound :
    get_system_data cfgFetchFail = Except.error (PyErr.unboundLocal "parameters") := rfl

/-- Claim C5: when instance discovery returns an empty result,
`get_system_data` logs a warning naming the system and the grains FQDN
and returns the empty mapping `{}` without raising. -/
theorem claim_C5_empty_discovery_returns_empty (cfg : Config)
    (h : cfg.hostctrlInstances = []) :
    get_system_data cfg =
      Except.ok ({}, [(LogLevel.warning,
        "No instances found for " ++ cfg.sid ++ " on " ++ cfg.grainsFqdn)]) := by
  unfold get_system_data
  rw [h]
  rfl

theorem claim_C5_witness :
    get_system_data cfgNoInstances =
      Except.ok ({}, [(LogLevel.warning,
        "No instances found for " ++ cfgNoInstances.sid ++ " on "
          ++ cfgNoInstances.grainsFqdn)]) :=
  claim_C5_empty_discovery_returns_empty cfgNoInstances rfl

/-- Claim C4: when discovery returns a non-empty result but the detail
fetch for the first instance returns an empty result, `get_system_data`
raises an exception whose message contains the system id and the FQDN
derived from the first discovered hostname. -/
theorem claim_C4_detail_empty_raises_with_sid_and_fqdn (cfg : Config)
    (h0 : String) (n0 : Nat) (rest : List (String × Nat))
    (h1 : cfg.hostctrlInstances = (h0, n0) :: rest)
    (h2 : cfg.systemInstanceList n0 (h0 ++ "." ++ cfg.domain) = []) :
    ∃ msg, get_system_data cfg = Except.error (PyErr.exception msg) ∧
      (∃ a b, msg = a ++ cfg.sid ++ b) ∧
      (∃ a b, msg = a ++ (h0 ++ "." ++ cfg.domain) ++ b) := by
  refine ⟨"No instances found for " ++ cfg.sid ++ " on "
      ++ (h0 ++ "." ++ cfg.domain), ?_, ?_, ?_⟩
  · unfold get_system_data
    rw [h1]
    simp only [h2]
  · exact ⟨"No instances found for ", " on " ++ (h0 ++ "." ++ cfg.domain),
      String.append_assoc _ _ _⟩
  · exact ⟨"No instances found for " ++ cfg.sid ++ " on ", "",
      (String.append_empty _).symm⟩

theorem claim_C4_witness :
    ∃ msg, get_system_data cfgDetailEmpty = Except.error (PyErr.exception msg) ∧
      (∃ a b, msg = a ++ cfgDetailEmpty.sid ++ b) ∧
      (∃ a b, msg = a ++ ("host0" ++ "." ++ cfgDetailEmpty.domain) ++ b) :=
  claim_C4_detail_empty_raises_with_sid_and_fqdn cfgDetailEmpty "host0" 0 [] rfl rfl

/-- Claim C6: classification scans the features list in the fixed
precedence order ABAP, WEBDISP, J2EE→JAVA, TREX, HDB,
MESSAGESERVER→ASCS, else UNKNOWN, and only the first match applies; in
particular features containing both "ABAP" and "MESSAGESERVER" classify
as ABAP. -/
theorem claim_C6_classification_precedence :
    (∀ fs, "ABAP" ∈ fs → classify fs = "ABAP") ∧
    (∀ fs, "ABAP" ∉ fs → "WEBDISP" ∈ fs → classify fs = "WEBDISP") ∧
    (∀ fs, "ABAP" ∉ fs → "WEBDISP" ∉ fs → "J2EE" ∈ fs → classify fs = "JAVA") ∧
    (∀ fs, "ABAP" ∉ fs → "WEBDISP" ∉ fs → "J2EE" ∉ fs → "TREX" ∈ fs →
      classify fs = "TREX") ∧
    (∀ fs, "ABAP" ∉ fs → "WEBDISP" ∉ fs → "J2EE" ∉ fs → "TREX" ∉ fs →
      "HDB" ∈ fs → classify fs = "HDB") ∧
    (∀ fs, "ABAP" ∉ fs → "WEBDISP" ∉ fs → "J2EE" ∉ fs → "TREX" ∉ fs →
      "HDB" ∉ fs → "MESSAGESERVER" ∈ fs → classify fs = "ASCS") ∧
    (∀ fs, "ABAP" ∉ fs → "WEBDISP" ∉ fs → "J2EE" ∉ fs → "TREX" ∉ fs →
      "HDB" ∉ fs → "MESSAGESERVER" ∉ fs → classify fs = "UNKNOWN") ∧
    classify ["ABAP", "MESSAGESERVER"] = "ABAP" := by
  refine ⟨?_, ?_, ?_, ?_, ?_, ?_, ?_, rfl⟩ <;> intros <;> simp [classify, *]

theorem claim_C6_witness : classify ["ABAP", "MESSAGESERVER"] = "ABAP" :=
  claim_C6_classification_precedence.1 ["ABAP", "MESSAGESERVER"] (by decide)

/-- Claim C7: parameter-dump parsing splits on newlines and on the first
`=`, trimming key and value; a non-empty line without `=` produces one
warning and does not abort.  The first conjunct is the claim's concrete
dump, the second exercises trimming and the first-`=` split. -/
theorem claim_C7_parameter_dump_parsing :
    parseParameters "SAPDBHOST=host1\nfoo\nrsdb/dbid=T01" =
      ([("SAPDBHOST", "host1"), ("rsdb/dbid", "T01")],
       [(LogLevel.warning,
         "Cannot determine key/value of parameter " ++ sq ++ "foo" ++ sq)]) ∧
    parseParameters " a = b=c " = ([("a", "b=c")], []) :=
  ⟨rfl, rfl⟩

theorem abapBranch_instances (cfg : Config) (p : Option ParamMap)
    (sd : SystemData) (inst : InstanceRec) (n : Nat) (f : String)
    (sd2 : SystemData) (i2 : InstanceRec) (lg : Log)
    (h : abapBranch cfg p sd inst n f = Except.ok (sd2, i2, lg)) :
    sd2.instances = sd.instances := by
  unfold abapBranch at h
  rw [exceptBind_ok_iff] at h
  obtain ⟨params, _hp, h⟩ := h
  rw [exceptBind_ok_iff] at h
  obtain ⟨r4, _hr4, h⟩ := h
  rw [exceptPure_ok_iff] at h
  injection h with hsd h2
  subst hsd
  rcases h1 : pmFind params "SAPDBHOST" with _ | v1 <;>
    rcases hh2 : pmFind params "rsdb/dbid" with _ | v2 <;>
    simp only [h1, hh2] <;> split <;> try rfl
  all_goals (split <;> rfl)

theorem msBranch_instances (cfg : Config) (p : Option ParamMap)
    (sd : SystemData) (inst : InstanceRec) (n : Nat) (f : String)
    (sd2 : SystemData) (i2 : InstanceRec) (lg : Log)
    (h : msBranch cfg p sd inst n f = Except.ok (sd2, i2, lg)) :
    sd2.instances = sd.instances := by
  unfold msBranch at h
  rw [exceptBind_ok_iff] at h
  obtain ⟨b, _hb, h⟩ := h
  rw [exceptBind_ok_iff] at h
  obtain ⟨resp, _hr, h⟩ := h
  rw [exceptPure_ok_iff] at h
  injection h with hsd h2
  subst hsd
  rfl

theorem typeSpecific_instances (cfg : Config) (p : Option ParamMap)
    (sd : SystemData) (inst : InstanceRec) (n : Nat) (f : String)
    (sd2 : SystemData) (i2 : InstanceRec) (lg : Log)
    (h : typeSpecific cfg p sd inst n f = Except.ok (sd2, i2, lg)) :
    sd2.instances = sd.instances := by
  unfold typeSpecific at h
  split at h
  · exact abapBranch_instances cfg p sd _ n f sd2 i2 lg h
  · rw [exceptPure_ok_iff] at h; injection h with hsd h2; subst hsd; rfl
  · rw [exceptPure_ok_iff] at h; injection h with hsd h2; subst hsd; rfl
  · rw [exceptPure_ok_iff] at h; injection h with hsd h2; subst hsd; rfl
  · rw [exceptPure_ok_iff] at h; injection h with hsd h2; subst hsd; rfl
  · exact msBranch_instances cfg p sd _ n f sd2 i2 lg h
  · rw [exceptPure_ok_iff] at h; injection h with hsd h2; subst hsd; rfl

theorem processInstance_shape (cfg : Config) (fqdnMgmt : String)
    (st : LoopState) (raw : RawInstance) (st2 : LoopState)
    (h : processInstance cfg fqdnMgmt st raw = Except.ok st2) :
    ∃ rec, st2.sd.instances = dictInsert st.sd.instances raw.instanceNo rec ∧
      rec.instanceField = none ∧
      rec.name = some ((pmFind (cfg.instanceProperties raw.instanceNo fqdnMgmt)
        "INSTANCE_NAME").getD "UNKOWN_INSTANCE_NAME") := by
  unfold processInstance at h
  rw [exceptBind_ok_iff] at h
  obtain ⟨t, ht, h⟩ := h
  rw [exceptPure_ok_iff] at h
  subst h
  have hinst := typeSpecific_instances cfg _ st.sd _ raw.instanceNo _
    t.1 t.2.1 t.2.2 ht
  exact ⟨_, by rw [← hinst], rfl, rfl⟩

/-- Claim C8: for a MESSAGESERVER instance, when the service-name-database
grep for `sapms<SID>` fails, `msport` defaults to `"36"` followed by the
zero-padded instance number, and when no HTTP/HTTPS `ms/server_port_`
parameter was found, the message-server record's `httpport` defaults to
`"81"` followed by the zero-padded instance number, with a warning. -/
theorem claim_C8_messageserver_port_defaults (cfg : Config)
    (params : ParamMap) (inst : InstanceRec) (n : Nat) (f : String)
    (hGrep : (cfg.fileGrep "/etc/services" ("sapms" ++ cfg.sid)).retcode ≠ 0)
    (hNoMs : ∀ kv ∈ params, pyStartsWith kv.1 "ms/server_port_" = false) :
    buildMessageServerRecord cfg (some params) inst n f =
      Except.ok
        ({host := f, msport := some ("36" ++ pad2 n),
          httpport := some ("81" ++ pad2 n), httpsport := none},
         inst,
         [(LogLevel.warning,
           "Could not determine HTTP / HTTPS port of message server, setting to default 81"
             ++ pad2 n)]) := by
  simp only [buildMessageServerRecord, getParams]
  rw [if_neg hGrep]
  rw [pure_bind, pure_bind]
  rw [foldPortParams_no_match "ms/server_port_" params inst hNoMs]
  rfl

theorem claim_C8_witness :
    buildMessageServerRecord baseCfg (some []) msInst 1 "ascs.example.com" =
      Except.ok
        ({host := "ascs.example.com", msport := some "3601",
          httpport := some "8101", httpsport := none},
         msInst,
         [(LogLevel.warning,
           "Could not determine HTTP / HTTPS port of message server, setting to default 8101")]) :=
  claim_C8_messageserver_port_defaults baseCfg [] msInst 1 "ascs.example.com"
    (by decide) (by simp)

/-- Claim C9: after a successful collection run, the instance numbers are
unique keys of the `instances` mapping and the raw `"instance"` field has
been removed from every stored record (it was promoted to the key before
insertion; the fold structure inserts each record fully built, so no
record changes after its insertion). -/
theorem claim_C9_instances_keys_unique_raw_removed (cfg : Config)
    (sd : SystemData) (lg : Log)
    (h : get_system_data cfg = Except.ok (sd, lg)) :
    (sd.instances.map Prod.fst).Nodup ∧
      ∀ p ∈ sd.instances, p.2.instanceField = none := by
  unfold get_system_data at h
  split at h
  · rw [exceptPure_ok_iff] at h
    injection h with hsd _
    subst hsd
    simp
  · split at h
    · simp at h
    · rw [exceptMap_ok_iff] at h
      obtain ⟨st1, hfold, hmap⟩ := h
      injection hmap with hsd _
      subst hsd
      have inv := foldlM_ok_inv _
        (fun st : LoopState => (st.sd.instances.map Prod.fst).Nodup ∧
          ∀ p ∈ st.sd.instances, p.2.instanceField = none)
        ?_ _ _ _ hfold ⟨List.nodup_nil, by simp⟩
      · exact inv
      · intro s a s2 hstep hP
        obtain ⟨rec, heq, hnone, _⟩ := processInstance_shape _ _ s a s2 hstep
        constructor
        · rw [heq]; exact dictInsert_keys_nodup hP.1
        · intro p hp
          rw [heq] at hp
          rcases dictInsert_mem hp with hin | hnew
          · exact hP.2 p hin
          · rw [hnew]; exact hnone

theorem claim_C9_witness :
    (webdispSD.instances.map Prod.fst).Nodup ∧
      ∀ p ∈ webdispSD.instances, p.2.instanceField = none :=
  claim_C9_instances_keys_unique_raw_removed cfgWebdisp webdispSD [] rfl

/-- Claim C10: in every successful run, each stored instance's `name` was
obtained from the instance-properties fetch invoked with the FQDN derived
from the first discovered hostname (the management host), not with the
per-instance `fqdn` of the same iteration. -/
theorem claim_C10_properties_fetched_with_management_fqdn (cfg : Config)
    (h0 : String) (n0 : Nat) (rest : List (String × Nat))
    (sd : SystemData) (lg : Log)
    (hc : cfg.hostctrlInstances = (h0, n0) :: rest)
    (h : get_system_data cfg = Except.ok (sd, lg)) :
    ∀ p ∈ sd.instances, p.2.name =
      some ((pmFind (cfg.instanceProperties p.1 (h0 ++ "." ++ cfg.domain))
        "INSTANCE_NAME").getD "UNKOWN_INSTANCE_NAME") := by
  unfold get_system_data at h
  split at h
  · rename_i heq
    rw [hc] at heq
    simp at heq
  · rename_i hostname n1 tail heq
    rw [hc] at heq
    injection heq with e1 e2
    injection e1 with eh en
    subst eh
    subst en
    split at h
    · simp at h
    · rw [exceptMap_ok_iff] at h
      obtain ⟨st1, hfold, hmap⟩ := h
      injection hmap with hsd _
      subst hsd
      have inv := foldlM_ok_inv _
        (fun st : LoopState => ∀ p ∈ st.sd.instances, p.2.name =
          some ((pmFind (cfg.instanceProperties p.1 (h0 ++ "." ++ cfg.domain))
            "INSTANCE_NAME").getD "UNKOWN_INSTANCE_NAME"))
        ?_ _ _ _ hfold (by simp)
      · exact inv
      · intro s a s2 hstep hP
        obtain ⟨rec, heq2, _, hname⟩ := processInstance_shape _ _ s a s2 hstep
        intro p hp
        rw [heq2] at hp
        rcases dictInsert_mem hp with hin | hnew
        · exact hP p hin
        · rw [hnew]; exact hname

theorem claim_C10_witness :
    webdispRec.name =
      some ((pmFind (cfgWebdisp.instanceProperties 2
        ("host0" ++ "." ++ cfgWebdisp.domain))
        "INSTANCE_NAME").getD "UNKOWN_INSTANCE_NAME") :=
  claim_C10_properties_fetched_with_management_fqdn cfgWebdisp "host0" 0 []
    webdispSD [] rfl rfl (2, webdispRec) (by simp [webdispSD])

end SapModule
